import Mathlib

/-!
# Verification of the OWON XDM remote SCPI DMM protocol engine

Shallow embedding of `src/components/owon_xdm/owon_xdm.h` (class `SCPIDMM`
in namespace `esphome::scpi_dmm`).  Pure fragments of the C++ code become
Lean functions; the mutable members of the `SCPIDMM` class become an
explicit state record threaded through the operations; UART writes, sensor
publications and log lines become an explicit event list.  Numeric
measurement values (C++ `float`) are modelled as exact rationals `ℚ`.
-/

namespace ScpiDmm

/-- `MeasurementFunction` enumeration, verbatim from the source. -/
inductive MeasurementFunction where
  | VOLTAGE_DC
  | VOLTAGE_AC
  | CURRENT_DC
  | CURRENT_AC
  | RESISTANCE
  | CONTINUITY
  | DIODE
  | FREQUENCY
  | TEMPERATURE
  | CAPACITANCE
  | UNKNOWN
  deriving DecidableEq, Repr

/-- `struct DeviceCommands` with its member default values, verbatim from
the source. -/
structure DeviceCommands where
  measure_voltage_dc : String := "MEAS:VOLT:DC?"
  measure_voltage_ac : String := "MEAS:VOLT:AC?"
  measure_current_dc : String := "MEAS:CURR:DC?"
  measure_current_ac : String := "MEAS:CURR:AC?"
  measure_resistance : String := "MEAS:RES?"
  measure_frequency : String := "MEAS:FREQ?"
  measure_capacitance : String := "MEAS:CAP?"
  measure_temperature : String := "MEAS:TEMP?"
  measure_continuity : String := "MEAS:CONT?"
  measure_diode : String := "MEAS:DIOD?"
  identify : String := "*IDN?"
  reset : String := "*RST"
  remote_enable : String := "SYST:REM"
  fast_mode : String := ""
  init_commands : List String := []
  deriving DecidableEq, Repr

/-- The `"OWON_XDM"` entry of `DEVICE_COMMANDS`: designated initializers
override `measure_voltage_dc`, `measure_current_dc`, `fast_mode` and
`init_commands`; every other member keeps its default. -/
def OWON_XDM_COMMANDS : DeviceCommands :=
  { measure_voltage_dc := "MEAS:VOLT?"
    measure_current_dc := "MEAS:CURR?"
    fast_mode := "RATE F"
    init_commands := ["RATE F", "RATE?"] }

/-- The `"KEYSIGHT_34460A"` entry of `DEVICE_COMMANDS`: only
`init_commands` is overridden. -/
def KEYSIGHT_34460A_COMMANDS : DeviceCommands :=
  { init_commands :=
      ["DISP:TEXT:CLE", "SENS:VOLT:DC:NPLC 0.02", "TRIG:SOUR IMM", "TRIG:COUN INF"] }

/-- The `DEVICE_COMMANDS` map, as an association list keyed by the
device-type string. -/
def DEVICE_COMMANDS : List (String × DeviceCommands) :=
  [("OWON_XDM", OWON_XDM_COMMANDS), ("KEYSIGHT_34460A", KEYSIGHT_34460A_COMMANDS)]

/-- Modelled from the spec (§4.1 Command Table): the source declares the
`DEVICE_COMMANDS` table but contains no lookup operation over it (the
table is never read by the class).  The spec's contract is
`lookup(device_type) -> CommandSet`: the device-specific entry on an exact
key match, otherwise the generic default entry. -/
def lookup_commands (device_type : String) : DeviceCommands :=
  match DEVICE_COMMANDS.find? (fun p => p.1 == device_type) with
  | some p => p.2
  | none => {}

/-- The mutable members of the `SCPIDMM` class, plus the sensor/sink
pointers (a pointer is `none` when null, `some i` when bound to sink
identity `i`). -/
structure SCPIState where
  value_sensor : Option Nat := none
  function_sensor : Option Nat := none
  status_sensor : Option Nat := none
  idn_sensor : Option Nat := none
  rx_buffer : List Char := []
  current_function : MeasurementFunction := .UNKNOWN
  waiting_for_idn : Bool := true
  last_query : Nat := 0
  deriving DecidableEq, Repr

/-- The member initial values of a freshly constructed `SCPIDMM`:
all sensor pointers null, empty receive buffer, function `UNKNOWN`,
`waiting_for_idn_{true}`, `last_query_{0}`. -/
def initial_state : SCPIState := {}

/-- Observable effects: UART writes (`write_str`), sensor publications
(`publish_state` on the value / function / identification sinks), warning
log lines (`ESP_LOGW`) and Home-Assistant service registrations. -/
inductive Event where
  | uartWrite : String → Event
  | publishValue : ℚ → Event
  | publishFunction : String → Event
  | publishIdn : String → Event
  | logWarn : String → Event
  | registerService : String → Event
  deriving DecidableEq, Repr

/-- Projection selecting identification publications from an event list. -/
def idnEventOf : Event → Option String
  | .publishIdn s => some s
  | _ => none

/-- Projection selecting UART writes from an event list. -/
def writeEventOf : Event → Option String
  | .uartWrite s => some s
  | _ => none

/-! ## Line framer (byte-consuming half of `SCPIDMM::loop`, lines 157-170) -/

/-- One step of the byte loop in `SCPIDMM::loop`: a line feed finalizes a
non-empty buffer into a completed line and clears the buffer (an empty
buffer stays empty and emits nothing); a carriage return is dropped; any
other byte is appended to `rx_buffer_`. -/
def feed_byte (buf : List Char) (c : Char) : List Char × Option (List Char) :=
  if c = '\n' then
    if buf.length > 0 then ([], some buf) else (buf, none)
  else if c = '\r' then (buf, none)
  else (buf ++ [c], none)

/-- Iterate `feed_byte` over a byte sequence, collecting the completed
lines in order. -/
def feed_bytes (buf : List Char) : List Char → List Char × List (List Char)
  | [] => (buf, [])
  | c :: cs =>
    match feed_byte buf c with
    | (buf1, none) => feed_bytes buf1 cs
    | (buf1, some l) =>
      let r := feed_bytes buf1 cs
      (r.1, l :: r.2)

/-! ## Numeric response parsing (`SCPIDMM::parse_numeric_response_`) -/

/-- The whitespace characters skipped by `std::stof` (C locale `isspace`). -/
def isSpaceByte (c : Char) : Bool :=
  c = ' ' || c = '\t' || c = '\n' || c = '\x0b' || c = '\x0c' || c = '\r'

/-- ASCII decimal digit test. -/
def isDigitByte (c : Char) : Bool :=
  '0' ≤ c && c ≤ '9'

/-- Value of an ASCII digit string, most significant digit first. -/
def digitsToNat (acc : Nat) : List Char → Nat
  | [] => acc
  | c :: cs => digitsToNat (acc * 10 + (c.toNat - 48)) cs

/-- Exponent part after the `e`/`E` marker: optional sign then digits; if
no digit follows, `strtof` does not consume the exponent part and the
value is the plain mantissa (exponent 0). -/
def parseExponent (cs : List Char) : Int :=
  let p : Int × List Char :=
    match cs with
    | '+' :: r => (1, r)
    | '-' :: r => (-1, r)
    | _ => (1, cs)
  let ds := (p.2.span isDigitByte).1
  if ds.isEmpty then 0 else p.1 * (digitsToNat 0 ds : Int)

/-- `(10 : ℚ)` raised to an integer power, computably. -/
def qpow10 (e : Int) : ℚ :=
  if 0 ≤ e then (10 : ℚ) ^ e.toNat else ((10 : ℚ) ^ (-e).toNat)⁻¹

/-- Scanning stage of `std::strtof`: optional leading whitespace, optional
sign, decimal digits with an optional fractional part (at least one digit
in the mantissa), an optional `e`/`E` exponent; trailing characters are
ignored.  Returns `(negative?, mantissa digits as a natural number,
number of fraction digits, exponent)`, or `none` when no conversion can be
performed. -/
def parse_components (response : String) : Option (Bool × Nat × Nat × Int) :=
  let cs := response.data.dropWhile isSpaceByte
  let sg : Bool × List Char :=
    match cs with
    | '+' :: r => (false, r)
    | '-' :: r => (true, r)
    | _ => (false, cs)
  let ip := sg.2.span isDigitByte
  let fp : List Char × List Char :=
    match ip.2 with
    | '.' :: r => r.span isDigitByte
    | _ => ([], ip.2)
  if ip.1.isEmpty && fp.1.isEmpty then none
  else
    let e : Int :=
      match fp.2 with
      | c :: r => if c = 'e' || c = 'E' then parseExponent r else 0
      | [] => 0
    some (sg.1, digitsToNat 0 (ip.1 ++ fp.1), fp.1.length, e)

/-- `SCPIDMM::parse_numeric_response_` = `std::stof(response)`, modelled
over exact rationals: the value of the scanned components, `none`
modelling the `std::invalid_argument` throw when no conversion can be
performed.  Hexadecimal, infinity and NaN literal forms lie outside the
exact-rational value model. -/
def parse_numeric_response (response : String) : Option ℚ :=
  (parse_components response).map fun t =>
    (if t.1 then (-1 : ℚ) else 1) * ((t.2.1 : ℚ) / (10 : ℚ) ^ t.2.2.1) * qpow10 t.2.2.2

/-! ## Function parsing (`SCPIDMM::parse_function_`) -/

/-- C locale `::toupper` on an ASCII character. -/
def toUpperChar (c : Char) : Char :=
  if 'a' ≤ c && c ≤ 'z' then Char.ofNat (c.toNat - 32) else c

/-- `std::string::find(needle) != npos`: substring containment. -/
def strFind : List Char → List Char → Bool
  | [], needle => needle.isEmpty
  | c :: t, needle => needle.isPrefixOf (c :: t) || strFind t needle

/-- `SCPIDMM::parse_function_`: uppercase the command string, then scan
for the SCPI fragments in the source's fixed order, returning the first
one contained as a substring, `UNKNOWN` when none is. -/
def parse_function (function : String) : MeasurementFunction :=
  let upper := function.data.map toUpperChar
  if strFind upper "VOLT:DC".data then .VOLTAGE_DC
  else if strFind upper "VOLT:AC".data then .VOLTAGE_AC
  else if strFind upper "CURR:DC".data then .CURRENT_DC
  else if strFind upper "CURR:AC".data then .CURRENT_AC
  else if strFind upper "RES".data then .RESISTANCE
  else if strFind upper "CONT".data then .CONTINUITY
  else if strFind upper "DIOD".data then .DIODE
  else if strFind upper "FREQ".data then .FREQUENCY
  else if strFind upper "TEMP".data then .TEMPERATURE
  else if strFind upper "CAP".data then .CAPACITANCE
  else .UNKNOWN

/-- The spec's priority list of SCPI fragments (§4.4), in its stated
order, each paired with the function it selects. -/
def FUNCTION_FRAGMENTS : List (String × MeasurementFunction) :=
  [("VOLT:DC", .VOLTAGE_DC), ("VOLT:AC", .VOLTAGE_AC),
   ("CURR:DC", .CURRENT_DC), ("CURR:AC", .CURRENT_AC),
   ("RES", .RESISTANCE), ("CONT", .CONTINUITY), ("DIOD", .DIODE),
   ("FREQ", .FREQUENCY), ("TEMP", .TEMPERATURE), ("CAP", .CAPACITANCE)]

/-- First fragment of a priority list contained in the (already
uppercased) command string, `UNKNOWN` when none is. -/
def firstFragment (upper : List Char) : List (String × MeasurementFunction) → MeasurementFunction
  | [] => .UNKNOWN
  | (frag, f) :: rest => if strFind upper frag.data then f else firstFragment upper rest

/-- Modelled from the spec (§4.4 Function State Machine): case-insensitive
first-match scan over the fixed priority list, `UNKNOWN` when no fragment
matches.  Stated separately from `parse_function` so the two can be
compared. -/
def spec_parse_function (s : String) : MeasurementFunction :=
  firstFragment (s.data.map toUpperChar) FUNCTION_FRAGMENTS

/-! ## Commands and state operations -/

/-- `SCPIDMM::send_command`: write the command with `"\r\n"` appended. -/
def send_command (cmd : String) : List Event :=
  [.uartWrite (cmd ++ "\r\n")]

/-- `SCPIDMM::set_function`: send the raw command string, update
`current_function_` via `parse_function_`, and publish the raw string on
the function label sink when bound. -/
def set_function (st : SCPIState) (function : String) : SCPIState × List Event :=
  ({ st with current_function := parse_function function },
   send_command function ++
     (match st.function_sensor with
      | some _ => [.publishFunction function]
      | none => []))

/-- `SCPIDMM::query_measurement_`: the command string sent for each value
of `current_function_` (the `default` case of the `switch` catches
`UNKNOWN`). -/
def query_command : MeasurementFunction → String
  | .VOLTAGE_DC => "MEAS:VOLT:DC?"
  | .VOLTAGE_AC => "MEAS:VOLT:AC?"
  | .CURRENT_DC => "MEAS:CURR:DC?"
  | .CURRENT_AC => "MEAS:CURR:AC?"
  | .RESISTANCE => "MEAS:RES?"
  | .FREQUENCY => "MEAS:FREQ?"
  | .CAPACITANCE => "MEAS:CAP?"
  | .TEMPERATURE => "MEAS:TEMP?"
  | .CONTINUITY => "MEAS:CONT?"
  | .DIODE => "MEAS:DIOD?"
  | .UNKNOWN => "MEAS?"

/-- Modelled from the spec (§4.5): the query a `CommandSet` assigns to a
measurement function, `UNKNOWN` mapping to the generic measurement query.
Stated so the queries the code actually issues can be compared with the
Command Table's entries. -/
def command_set_query (cs : DeviceCommands) : MeasurementFunction → String
  | .VOLTAGE_DC => cs.measure_voltage_dc
  | .VOLTAGE_AC => cs.measure_voltage_ac
  | .CURRENT_DC => cs.measure_current_dc
  | .CURRENT_AC => cs.measure_current_ac
  | .RESISTANCE => cs.measure_resistance
  | .FREQUENCY => cs.measure_frequency
  | .CAPACITANCE => cs.measure_capacitance
  | .TEMPERATURE => cs.measure_temperature
  | .CONTINUITY => cs.measure_continuity
  | .DIODE => cs.measure_diode
  | .UNKNOWN => "MEAS?"

/-- `SCPIDMM::setup`: register the five Home-Assistant services, then
unconditionally write `*IDN?`, `*RST` and `SYST:REM` (each CR/LF
terminated), in that order, without reading anything back.  No member
variable is touched. -/
def setup (st : SCPIState) : SCPIState × List Event :=
  (st,
   [.registerService "relative_zero", .registerService "reset",
    .registerService "set_function", .registerService "set_range",
    .registerService "set_rate",
    .uartWrite "*IDN?\r\n", .uartWrite "*RST\r\n", .uartWrite "SYST:REM\r\n"])

/-- `SCPIDMM::handle_response_`: an empty response returns at once; while
`waiting_for_idn_` the line is published on the identification sink (when
bound) and the flag is cleared; otherwise a successful numeric parse is
published on the value sink (when bound) and a failed parse only logs a
warning. -/
def handle_response (st : SCPIState) (response : String) : SCPIState × List Event :=
  if response = "" then (st, [])
  else if st.waiting_for_idn then
    ({ st with waiting_for_idn := false },
     match st.idn_sensor with
     | some _ => [.publishIdn response]
     | none => [])
  else
    match parse_numeric_response response with
    | some value =>
      (st,
       match st.value_sensor with
       | some _ => [.publishValue value]
       | none => [])
    | none => (st, [.logWarn response])

/-- `SCPIDMM::set_status_sensor`: the body `this->status_sensor =
status_sensor;` assigns the member to itself, ignoring the `sensor`
argument. -/
def set_status_sensor (st : SCPIState) (sensor : Option Nat) : SCPIState :=
  { st with status_sensor := st.status_sensor }

/-- `SCPIDMM::set_idn_sensor`: the body `this->idn_sensor = idn_sensor;`
assigns the member to itself, ignoring the `sensor` argument. -/
def set_idn_sensor (st : SCPIState) (sensor : Option Nat) : SCPIState :=
  { st with idn_sensor := st.idn_sensor }

/-- `SCPIDMM::set_value_sensor` (a normal setter, for contrast). -/
def set_value_sensor (st : SCPIState) (sensor : Option Nat) : SCPIState :=
  { st with value_sensor := sensor }

/-- `SCPIDMM::set_function_sensor` (a normal setter, for contrast). -/
def set_function_sensor (st : SCPIState) (sensor : Option Nat) : SCPIState :=
  { st with function_sensor := sensor }

/-! ## Polling scheduler (tail of `SCPIDMM::loop`, lines 172-176) -/

/-- `query_interval_` = 100 ms. -/
def query_interval : Nat := 100

/-- `uint32_t` wrap-around subtraction `a - b` (the type of
`millis() - last_query_`). -/
def u32sub (a b : Nat) : Nat :=
  (a % 2 ^ 32 + (2 ^ 32 - b % 2 ^ 32)) % 2 ^ 32

/-- Scheduler tail of `SCPIDMM::loop` at a tick occurring at time `now`:
when `millis() - last_query_ >= query_interval_`, issue the single query
for the current function and set `last_query_` to `millis()`; otherwise do
nothing. -/
def on_tick (st : SCPIState) (now : Nat) : SCPIState × List Event :=
  if query_interval ≤ u32sub now st.last_query then
    ({ st with last_query := now % 2 ^ 32 },
     send_command (query_command st.current_function))
  else (st, [])

/-- Times at which a tick sequence issues a query. -/
def poll_times (st : SCPIState) : List Nat → List Nat
  | [] => []
  | t :: ts =>
    let r := on_tick st t
    if r.2.isEmpty then poll_times r.1 ts else t :: poll_times r.1 ts

/-! ## Running the session over byte and line sequences -/

/-- Feed the completed lines of a tick's input one after the other into
`handle_response_`, collecting the events. -/
def run_lines (st : SCPIState) : List String → SCPIState × List Event
  | [] => (st, [])
  | l :: ls =>
    let r := handle_response st l
    let r2 := run_lines r.1 ls
    (r2.1, r.2 ++ r2.2)

/-- One received byte inside `SCPIDMM::loop`: the framer step on
`rx_buffer_`, a completed line going to `handle_response_`. -/
def process_byte (st : SCPIState) (c : Char) : SCPIState × List Event :=
  match feed_byte st.rx_buffer c with
  | (buf1, none) => ({ st with rx_buffer := buf1 }, [])
  | (buf1, some line) => handle_response { st with rx_buffer := buf1 } (String.mk line)

/-- All available bytes of one `loop` iteration. -/
def process_bytes (st : SCPIState) : List Char → SCPIState × List Event
  | [] => (st, [])
  | c :: cs =>
    let r := process_byte st c
    let r2 := process_bytes r.1 cs
    (r2.1, r.2 ++ r2.2)

/-- A full `SCPIDMM::loop` iteration: drain the available bytes, then run
the polling-scheduler check at time `now`. -/
def loop (st : SCPIState) (input : List Char) (now : Nat) : SCPIState × List Event :=
  let r := process_bytes st input
  let r2 := on_tick r.1 now
  (r2.1, r.2 ++ r2.2)

/-- A session state past identification: flag cleared, value sink bound. -/
def example_idle_state : SCPIState :=
  { value_sensor := some 0, waiting_for_idn := false }

/-- A startup-time session state whose identification sink field was
written directly (the generated setter being a no-op). -/
def example_startup_state : SCPIState :=
  { idn_sensor := some 0 }

/-- A session state whose current function is DC voltage. -/
def example_voltdc_state : SCPIState :=
  { current_function := .VOLTAGE_DC }

/-! ## Theorems -/

/-- C2: per-byte framer behavior — carriage return dropped, line feed
emits the buffered bytes as one line when non-empty and nothing when
empty, any other byte appended — and `"5.123456E-03\r\n"` into an empty
buffer yields exactly the line `"5.123456E-03"` with an empty buffer
left. -/
theorem C2_line_framer (buf : List Char) (c : Char) :
    (c = '\r' → feed_byte buf c = (buf, none))
    ∧ (c = '\n' → buf ≠ [] → feed_byte buf c = ([], some buf))
    ∧ (c = '\n' → buf = [] → feed_byte buf c = (buf, none))
    ∧ (c ≠ '\n' → c ≠ '\r' → feed_byte buf c = (buf ++ [c], none))
    ∧ feed_bytes [] "5.123456E-03\r\n".data = ([], ["5.123456E-03".data]) := by
  refine ⟨?_, ?_, ?_, ?_, by decide⟩
  · rintro rfl
    simp [feed_byte]
  · rintro rfl hb
    simp [feed_byte, List.length_pos.mpr hb]
  · rintro rfl rfl
    simp [feed_byte]
  · intro h1 h2
    simp [feed_byte, h1, h2]

/-- Witness for C2 at a concrete byte. -/
theorem C2_line_framer_witness : feed_byte ['E'] '\r' = (['E'], none) :=
  (C2_line_framer ['E'] '\r').1 rfl

/-- Buffer after feeding `n` copies of a non-terminator byte. -/
theorem feed_bytes_replicate (buf : List Char) (n : Nat) :
    feed_bytes buf (List.replicate n 'a') = (buf ++ List.replicate n 'a', []) := by
  induction n generalizing buf with
  | zero => simp [feed_bytes]
  | succ n ih => simp [List.replicate_succ, feed_bytes, feed_byte, ih]

/-- C9: the partial-line buffer is only accumulated (every byte other
than a line feed leaves the old buffer a prefix of the new one), it is
cleared exactly at a line feed — the completed line being handed
downstream when non-empty — and it has no length bound: `n`
non-terminator bytes grow it to length `n`. -/
theorem C9_buffer_accumulation (buf : List Char) (c : Char) (n : Nat) :
    (c ≠ '\n' → buf <+: (feed_byte buf c).1)
    ∧ (feed_byte buf '\n').1 = []
    ∧ (buf ≠ [] → (feed_byte buf '\n').2 = some buf)
    ∧ (feed_bytes [] (List.replicate n 'a')).1.length = n := by
  refine ⟨?_, ?_, ?_, by simp [feed_bytes_replicate]⟩
  · intro h
    unfold feed_byte
    rw [if_neg h]
    split_ifs
    · exact List.prefix_refl _
    · exact ⟨[c], rfl⟩
  · unfold feed_byte
    rw [if_pos rfl]
    split_ifs with h
    · rfl
    · show buf = []
      exact List.length_eq_zero.mp (by omega)
  · intro hb
    simp [feed_byte, List.length_pos.mpr hb]

/-- Witness for C9 at a concrete byte. -/
theorem C9_buffer_accumulation_witness : ['x'] <+: (feed_byte ['x'] 'y').1 :=
  (C9_buffer_accumulation ['x'] 'y' 0).1 (by decide)

/-- C4: `parse_function_` agrees everywhere with the spec's
first-match scan over the fixed case-insensitive fragment priority list,
and both quoted `set_function` commands resolve the current function to
`VOLTAGE_DC`. -/
theorem C4_function_parsing :
    (∀ s, parse_function s = spec_parse_function s)
    ∧ (∀ st, (set_function st "MEAS:VOLT:DC?").1.current_function
        = MeasurementFunction.VOLTAGE_DC)
    ∧ (∀ st, (set_function st "ANYTHING VOLT:DC MORE").1.current_function
        = MeasurementFunction.VOLTAGE_DC) := by
  refine ⟨?_, ?_, ?_⟩
  · intro s
    simp [parse_function, spec_parse_function, FUNCTION_FRAGMENTS, firstFragment]
  · intro st
    simp only [set_function]
    decide
  · intro st
    simp only [set_function]
    decide

/-- C7: Command Table lookup returns the device-specific entry on an
exact key match and the default-valued `DeviceCommands` record otherwise;
being a total function of the key, it has no error path and no side
effect. -/
theorem C7_lookup_total (dt : String) :
    lookup_commands dt =
      if dt = "OWON_XDM" then OWON_XDM_COMMANDS
      else if dt = "KEYSIGHT_34460A" then KEYSIGHT_34460A_COMMANDS
      else {} := by
  by_cases h1 : dt = "OWON_XDM"
  · subst h1
    rfl
  · by_cases h2 : dt = "KEYSIGHT_34460A"
    · subst h2
      rfl
    · have e1 : ("OWON_XDM" == dt) = false := beq_eq_false_iff_ne.mpr (Ne.symm h1)
      have e2 : ("KEYSIGHT_34460A" == dt) = false := beq_eq_false_iff_ne.mpr (Ne.symm h2)
      simp [lookup_commands, DEVICE_COMMANDS, List.find?, e1, e2, h1, h2]

/-- C8: `setup` unconditionally writes the identification query, the
reset command and the remote-enable command, in this exact order, each
with the line terminator appended, and touches no session state (so it
cannot wait on or validate any acknowledgement). -/
theorem C8_startup_writes (st : SCPIState) :
    (setup st).2.filterMap writeEventOf
      = ["*IDN?" ++ "\r\n", "*RST" ++ "\r\n", "SYST:REM" ++ "\r\n"]
    ∧ (setup st).1 = st :=
  ⟨rfl, rfl⟩

/-- `handle_response_` on the empty line returns at once. -/
theorem handle_response_empty (st : SCPIState) : handle_response st "" = (st, []) := by
  simp [handle_response]

/-- While the identification flag is set, a non-empty line is published on
the bound identification sink and the flag cleared. -/
theorem handle_response_idn (st : SCPIState) (l : String) (k : Nat)
    (hl : l ≠ "") (hw : st.waiting_for_idn = true) (hk : st.idn_sensor = some k) :
    handle_response st l = ({ st with waiting_for_idn := false }, [.publishIdn l]) := by
  simp [handle_response, hl, hw, hk]

/-- Past identification, `handle_response_` leaves the whole state
unchanged. -/
theorem handle_response_state_eq (st : SCPIState) (l : String)
    (hw : st.waiting_for_idn = false) :
    (handle_response st l).1 = st := by
  unfold handle_response
  split_ifs with h1 h2
  · rfl
  · simp_all
  · rcases hp : parse_numeric_response l with _ | v <;> simp [hp]

/-- Past identification, no identification publication occurs. -/
theorem handle_response_no_idn (st : SCPIState) (l : String)
    (hw : st.waiting_for_idn = false) :
    (handle_response st l).2.filterMap idnEventOf = [] := by
  unfold handle_response
  split_ifs with h1 h2
  · rfl
  · simp_all
  · rcases hp : parse_numeric_response l with _ | v
    · simp [hp, idnEventOf]
    · rcases hv : st.value_sensor with _ | i <;> simp [hp, hv, idnEventOf]

/-- The identification flag after one handled line: it survives only an
empty line and is never raised. -/
theorem handle_response_waiting_eq (st : SCPIState) (l : String) :
    (handle_response st l).1.waiting_for_idn = (st.waiting_for_idn && (l == "")) := by
  unfold handle_response
  split_ifs with h1 h2
  · simp [h1]
  · simp [h1, h2]
  · have hw : st.waiting_for_idn = false := by simpa using h2
    rcases hp : parse_numeric_response l with _ | v <;> simp [hp, hw]

/-- Once past identification, a whole line sequence publishes no
identification and never raises the flag again. -/
theorem run_lines_no_idn (st : SCPIState) (ls : List String)
    (hw : st.waiting_for_idn = false) :
    (run_lines st ls).2.filterMap idnEventOf = []
    ∧ (run_lines st ls).1.waiting_for_idn = false := by
  induction ls generalizing st with
  | nil => exact ⟨rfl, hw⟩
  | cons l ls ih =>
    simp only [run_lines]
    rw [handle_response_state_eq st l hw]
    refine ⟨?_, (ih st hw).2⟩
    rw [List.filterMap_append, handle_response_no_idn st l hw, (ih st hw).1]
    rfl

/-- From the startup state, the identification publications of a line
sequence are exactly the first non-empty line. -/
theorem run_lines_idn_events (st : SCPIState) (k : Nat) (ls : List String)
    (hw : st.waiting_for_idn = true) (hk : st.idn_sensor = some k) :
    (run_lines st ls).2.filterMap idnEventOf
      = (ls.filter (fun l => !(l == ""))).take 1 := by
  induction ls generalizing st with
  | nil => rfl
  | cons l ls ih =>
    by_cases hl : l = ""
    · subst hl
      simp only [run_lines, handle_response_empty]
      simpa using ih st hw hk
    · simp only [run_lines, handle_response_idn st l k hl hw hk]
      have hno := (run_lines_no_idn { st with waiting_for_idn := false } ls rfl).1
      simp [List.filterMap_append, hno, idnEventOf, hl]

/-- From the startup state, the identification flag stays set exactly as
long as only empty lines have been seen. -/
theorem run_lines_waiting (st : SCPIState) (ls : List String)
    (hw : st.waiting_for_idn = true) :
    ((run_lines st ls).1.waiting_for_idn = true ↔ ∀ l ∈ ls, l = "") := by
  induction ls generalizing st with
  | nil => simp [run_lines, hw]
  | cons l ls ih =>
    by_cases hl : l = ""
    · subst hl
      simp only [run_lines, handle_response_empty]
      simp [ih st hw]
    · have h1 : (handle_response st l).1.waiting_for_idn = false := by
        rw [handle_response_waiting_eq]
        simp [hl]
      simp only [run_lines]
      have h2 := (run_lines_no_idn (handle_response st l).1 ls h1).2
      simp [h2, hl]

/-- C1: from startup (`waiting_for_idn_` initialized true), the first
non-empty line of any line sequence is published as the identification —
whatever its content — exactly once; the flag is cleared by that line,
survives only empty lines, and no operation ever raises it again. -/
theorem C1_first_line_identification (st : SCPIState) (k : Nat) (ls : List String)
    (hw : st.waiting_for_idn = true) (hk : st.idn_sensor = some k) :
    initial_state.waiting_for_idn = true
    ∧ (run_lines st ls).2.filterMap idnEventOf
        = (ls.filter (fun l => !(l == ""))).take 1
    ∧ ((run_lines st ls).1.waiting_for_idn = true ↔ ∀ l ∈ ls, l = "")
    ∧ (∀ st1 l, (handle_response st1 l).1.waiting_for_idn
        = (st1.waiting_for_idn && (l == "")))
    ∧ (∀ st1 now, (on_tick st1 now).1.waiting_for_idn = st1.waiting_for_idn)
    ∧ (∀ st1 f, (set_function st1 f).1.waiting_for_idn = st1.waiting_for_idn)
    ∧ (∀ st1, (setup st1).1.waiting_for_idn = st1.waiting_for_idn) := by
  refine ⟨rfl, run_lines_idn_events st k ls hw hk, run_lines_waiting st ls hw,
    handle_response_waiting_eq, ?_, fun st1 f => rfl, fun st1 => rfl⟩
  intro st1 now
  unfold on_tick
  split_ifs <;> rfl

/-- Witness for C1: feeding `"GARBLED"` first still publishes it as the
identification. -/
theorem C1_first_line_identification_witness :
    (run_lines example_startup_state ["GARBLED"]).2.filterMap idnEventOf
      = (["GARBLED"].filter (fun l => !(l == ""))).take 1 :=
  (C1_first_line_identification example_startup_state 0 ["GARBLED"] rfl rfl).2.1

/-- C3: past identification, a line that parses numerically publishes
exactly its value on the value sink and leaves the whole state unchanged;
a line that does not parse publishes nothing, only logs, and leaves the
whole state unchanged; `"5.123456E-03"` parses to `0.005123456` and
`"ERROR"` does not parse. -/
theorem C3_numeric_classification (st : SCPIState) (l : String)
    (hw : st.waiting_for_idn = false) (hl : l ≠ "") :
    (∀ v, parse_numeric_response l = some v → st.value_sensor.isSome = true →
        handle_response st l = (st, [.publishValue v]))
    ∧ (parse_numeric_response l = none → handle_response st l = (st, [.logWarn l]))
    ∧ parse_numeric_response "5.123456E-03" = some (5123456 / 1000000000)
    ∧ parse_numeric_response "ERROR" = none := by
  refine ⟨?_, ?_, ?_, by decide⟩
  · intro v hv hs
    rcases Option.isSome_iff_exists.mp hs with ⟨i, hi⟩
    simp [handle_response, hw, hl, hv, hi]
  · intro hv
    simp [handle_response, hw, hl, hv]
  · have h : parse_components "5.123456E-03" = some (false, 5123456, 6, -3) := by decide
    rw [parse_numeric_response, h]
    norm_num [qpow10]
    rw [show Int.toNat 3 = 3 from rfl]
    norm_num

/-- Witness for C3: `"ERROR"` in the idle state is only logged. -/
theorem C3_numeric_classification_witness :
    handle_response example_idle_state "ERROR"
      = (example_idle_state, [.logWarn "ERROR"]) :=
  (C3_numeric_classification example_idle_state "ERROR" rfl (by decide)).2.1 (by decide)

/-- C5: a tick at time `now` issues exactly one query and stamps
`last_query_ := now` when at least the 100 ms interval has elapsed, does
nothing otherwise, never issues more than one query per tick, and the
quoted tick trace 0, 50, 100, 150, 250 ms polls exactly at 100 and
250 ms. -/
theorem C5_polling_scheduler (st : SCPIState) (now : Nat)
    (h1 : st.last_query ≤ now) (h2 : now < 2 ^ 32) :
    (query_interval ≤ now - st.last_query →
        on_tick st now
          = ({ st with last_query := now },
             [.uartWrite (query_command st.current_function ++ "\r\n")]))
    ∧ (now - st.last_query < query_interval → on_tick st now = (st, []))
    ∧ (∀ st1 t, (on_tick st1 t).2.length ≤ 1)
    ∧ poll_times { last_query := 0 } [0, 50, 100, 150, 250] = [100, 250] := by
  have e : (2 : Nat) ^ 32 = 4294967296 := by norm_num
  have h2' : now < 4294967296 := e ▸ h2
  have hu : u32sub now st.last_query = now - st.last_query := by
    unfold u32sub
    rw [e]
    omega
  have hm : now % 2 ^ 32 = now := Nat.mod_eq_of_lt h2
  refine ⟨?_, ?_, ?_, by decide⟩
  · intro h
    unfold on_tick
    rw [hu, if_pos h, hm]
    rfl
  · intro h
    unfold on_tick
    rw [hu, if_neg (by omega)]
  · intro st1 t
    unfold on_tick
    split_ifs
    · simp [send_command]
    · simp

/-- Witness for C5 at a concrete tick. -/
theorem C5_polling_scheduler_witness :
    on_tick example_voltdc_state 100
      = ({ example_voltdc_state with last_query := 100 },
         [.uartWrite (query_command example_voltdc_state.current_function ++ "\r\n")]) :=
  (C5_polling_scheduler example_voltdc_state 100 (by decide) (by decide)).1 (by decide)

/-- Counterexample to C6 as stated: with DC voltage selected, a due tick
writes the hard-coded generic query `MEAS:VOLT:DC?`, not the `OWON_XDM`
Command Table override `MEAS:VOLT?`. -/
theorem C6_counterexample :
    on_tick example_voltdc_state 100
      = ({ example_voltdc_state with last_query := 100 },
         [.uartWrite ("MEAS:VOLT:DC?" ++ "\r\n")])
    ∧ command_set_query (lookup_commands "OWON_XDM") MeasurementFunction.VOLTAGE_DC
        = "MEAS:VOLT?"
    ∧ query_command MeasurementFunction.VOLTAGE_DC
        ≠ command_set_query (lookup_commands "OWON_XDM") MeasurementFunction.VOLTAGE_DC := by
  refine ⟨by decide, by decide, by decide⟩

/-- C6 (amended): the polling query issued for every function is the
generic default command set's query string — the device-specific Command
Table is never consulted — with `UNKNOWN` mapping to `MEAS?`. -/
theorem C6_generic_query_only :
    (∀ f, query_command f = command_set_query {} f)
    ∧ query_command MeasurementFunction.UNKNOWN = "MEAS?"
    ∧ (∀ st now, (on_tick st now).2 = []
        ∨ (on_tick st now).2
            = [Event.uartWrite (command_set_query {} st.current_function ++ "\r\n")]) := by
  have hq : ∀ f, query_command f = command_set_query {} f := by
    intro f
    cases f <;> rfl
  refine ⟨hq, rfl, ?_⟩
  intro st now
  unfold on_tick
  split_ifs
  · right
    simp [send_command, hq]
  · left
    rfl

/-- C10: both generated sink setters assign the member to itself and so
leave the state unchanged for every argument; the sinks start null, and
with a null identification sink no identification line is ever published
(the status sink is never published to anywhere in the class). -/
theorem C10_self_assigned_setters (st : SCPIState) (sensor : Option Nat) (l : String)
    (h : st.idn_sensor = none) :
    set_status_sensor st sensor = st
    ∧ set_idn_sensor st sensor = st
    ∧ initial_state.status_sensor = none
    ∧ initial_state.idn_sensor = none
    ∧ (handle_response st l).2.filterMap idnEventOf = []
    ∧ (handle_response st l).1.idn_sensor = st.idn_sensor := by
  refine ⟨rfl, rfl, rfl, rfl, ?_, ?_⟩
  · unfold handle_response
    split_ifs with h1 h2
    · rfl
    · simp [h]
    · rcases hp : parse_numeric_response l with _ | v
      · simp [hp, idnEventOf]
      · rcases hv : st.value_sensor with _ | i <;> simp [hp, hv, idnEventOf]
  · unfold handle_response
    split_ifs with h1 h2
    · rfl
    · rfl
    · rcases hp : parse_numeric_response l with _ | v <;> simp [hp]

/-- Witness for C10: the status-sensor setter is a no-op on the fresh
state. -/
theorem C10_self_assigned_setters_witness :
    set_status_sensor initial_state (some 5) = initial_state :=
  (C10_self_assigned_setters initial_state (some 5) "X" rfl).1

end ScpiDmm
